import Mathlib

/-!
Verification of the snack-price tool facade (`src/snack_service.py`) against its
natural-language specification.

The Python service is a thin translation layer between named "tools" and a
PostgreSQL store.  We shallowly embed it: the five tables become lists of
records in a `Db` structure, each SQL statement the service issues becomes a
Lean function on `Db` (raising `PgError` where the store would), the psycopg2
exception discipline becomes an `Except Exc` channel, and the service methods
(`_execute_query`, `_execute_crud`, `_get_or_create_id`, `_construct_daterange`
and all registered tools) are translated line by line.

Modelling notes, fixed here once:
* psycopg2's exception hierarchy places `OperationalError` (raised on a failed
  `connect`) strictly below `Error`, so an `except Error` clause catches
  connection-acquisition failures.  `PgError` records the `pgcode` and
  `diag.constraint_name` attributes the code consults.
* A connection's transaction is modelled by threading a tentative `Db`;
  `commit` makes the tentative state the returned one, `rollback` (and the
  implicit discard on close without commit) returns the original `Db`.
* `psycopg2.extras.execute_values` with its default `page_size=100` splits the
  argument list into pages of at most 100 rows and issues one `INSERT` per
  page through the same cursor; `cursor.rowcount` afterwards is the row count
  of the last statement executed, per the driver's documentation.
* Python `Decimal` values are modelled as scaled integers (`Dec`); dates and
  timestamps as their ISO text (so `.isoformat()` is the identity on the
  payload and SQL comparisons are lexicographic, which agrees with calendar
  order on equal-format ISO text).  Python's `str.upper` is modelled by
  a character-wise upper-casing (`pyUpper`; it agrees with Python's on
  the ASCII text the code compares).
-/

set_option autoImplicit false

namespace SnackService

/-! ## String and list utilities -/

/-- `listStartsWith p l` : `p` is a prefix of `l` (on characters). -/
def listStartsWith : List Char → List Char → Bool
  | [], _ => true
  | _ :: _, [] => false
  | p :: ps, h :: hs => p == h && listStartsWith ps hs

/-- `listHasSub pat l` : `pat` occurs contiguously inside `l`. -/
def listHasSub (pat : List Char) : List Char → Bool
  | [] => listStartsWith pat []
  | h :: hs => listStartsWith pat (h :: hs) || listHasSub pat hs

/-- SQL `hay ILIKE '%' || pat || '%'` : case-insensitive substring match
(the service always wraps user text in `%` wildcards before binding). -/
def ilikeContains (hay pat : String) : Bool :=
  listHasSub pat.toLower.toList hay.toLower.toList

/-- Lexicographic `≤` on character lists. -/
def listLe : List Char → List Char → Bool
  | [], _ => true
  | _ :: _, [] => false
  | a :: as, b :: bs =>
    if a = b then listLe as bs else decide (a < b)

/-- Lexicographic `≤` on strings; on equal-format ISO dates/timestamps this
agrees with the store's temporal comparison. -/
def strLe (a b : String) : Bool :=
  listLe a.toList b.toList

/-- Stable insertion into a list sorted by `le`. -/
def insertSorted {α : Type} (le : α → α → Bool) (x : α) : List α → List α
  | [] => [x]
  | y :: ys => if le x y then x :: y :: ys else y :: insertSorted le x ys

/-- Stable insertion sort by `le`; stands in for the store's `ORDER BY`. -/
def sortBy {α : Type} (le : α → α → Bool) : List α → List α
  | [] => []
  | x :: xs => insertSorted le x (sortBy le xs)

/-- Chunking worker: `fuel` only forces structural recursion; each step
consumes at least one element, so with `fuel = l.length` at the top call the
exhausted-fuel case never fires. -/
def chunksFuel {α : Type} (m : Nat) : Nat → List α → List (List α)
  | _, [] => []
  | 0, _ :: _ => []
  | fuel + 1, x :: xs => (x :: xs).take (m + 1) :: chunksFuel m fuel (xs.drop m)

/-- Split a list into consecutive chunks of at most `m + 1` elements; this is
how `psycopg2.extras.execute_values` paginates its argument list (its default
page size 100 is `chunksOf1 99`). -/
def chunksOf1 {α : Type} (m : Nat) (l : List α) : List (List α) :=
  chunksFuel m l.length l

/-! ## Decimals

Python `Decimal` values reaching the service are exact scaled integers:
`Dec.mant / 10 ^ Dec.exp`.  `str(Decimal)` renders the digits without any
float round-trip; we model it by a fixed-point renderer (the scientific
notation cases of Python's algorithm never arise for the plain money values
this schema stores and are not modelled). -/

structure Dec where
  mant : Int
  exp : Nat
deriving Repr, DecidableEq

/-- Numeric `≤` on decimals, by cross-multiplying the (positive) scales. -/
def Dec.le (a b : Dec) : Bool :=
  decide (a.mant * (10 : Int) ^ b.exp ≤ b.mant * (10 : Int) ^ a.exp)

/-- `str` on a decimal: digits with an inserted point when `exp > 0`. -/
def Dec.str (d : Dec) : String :=
  if d.exp = 0 then toString d.mant
  else
    let sign := if d.mant < 0 then "-" else ""
    let digits := toString d.mant.natAbs
    let digits :=
      if digits.length ≤ d.exp then
        String.mk (List.replicate (d.exp + 1 - digits.length) '0') ++ digits
      else digits
    let cut := digits.length - d.exp
    sign ++ (digits.toList.take cut).asString ++ "." ++ (digits.toList.drop cut).asString

/-! ## Store values and result rows

A `DbValue` is one cell as the driver hands it to Python: `vDec` is a
`decimal.Decimal`, `vDate`/`vDatetime` carry their ISO text (so `.isoformat()`
returns the payload unchanged), everything else arrives as `int`, `str` or
`None` and is returned untouched. -/

inductive DbValue where
  | vNull
  | vInt (n : Int)
  | vText (s : String)
  | vDec (d : Dec)
  | vDate (iso : String)
  | vDatetime (iso : String)
deriving Repr, DecidableEq

/-- A result row, as the `DictCursor` presents it: named cells in order. -/
abbrev Row : Type := List (String × DbValue)

/-- The per-value normalisation loop of `_execute_query` (lines 69-73) and
`_execute_crud` (lines 92-96): `Decimal → str(value)`,
`date/datetime → value.isoformat()`, all else unchanged. -/
def normalizeValue : DbValue → DbValue
  | .vDec d => .vText d.str
  | .vDate iso => .vText iso
  | .vDatetime iso => .vText iso
  | v => v

/-- Row-level normalisation: the loop applied to every cell. -/
def normalizeRow (r : Row) : Row :=
  r.map (fun kv => (kv.1, normalizeValue kv.2))

/-- The weaker loop in `add_snack` (lines 266-267): only dates/datetimes are
converted; `Decimal`s would pass through unchanged. -/
def normalizeDatesOnly (r : Row) : Row :=
  r.map (fun kv =>
    (kv.1, match kv.2 with
           | .vDate iso => .vText iso
           | .vDatetime iso => .vText iso
           | v => v))

/-! ## Errors -/

/-- A psycopg2 exception below `Error`.  `opError` is the `OperationalError`
raised by a failed `psycopg2.connect` (`pgcode` and `constraint_name` absent);
`dbError` is any other store-reported error, carrying the `pgcode` and
`diag.constraint_name` attributes the service inspects. -/
structure PgError where
  isOpError : Bool
  pgcode : Option String
  constraintName : Option String
  msg : String
deriving Repr, DecidableEq

/-- The `OperationalError` a failed connection attempt raises. -/
def connectionError : PgError :=
  { isOpError := true, pgcode := none, constraintName := none,
    msg := "could not connect to server" }

/-- A unique-constraint violation (SQLSTATE 23505) on constraint `c`. -/
def uniqueViolation (c : String) : PgError :=
  { isOpError := false, pgcode := some "23505", constraintName := some c,
    msg := "duplicate key value violates unique constraint " ++ c }

/-- A foreign-key violation (SQLSTATE 23503) on constraint `c`. -/
def fkViolation (c : String) : PgError :=
  { isOpError := false, pgcode := some "23503", constraintName := some c,
    msg := "violates foreign key constraint " ++ c }

/-- `str(e)` as interpolated into the service's error messages. -/
def PgError.text (e : PgError) : String := e.msg

/-! ## The relational store

Five tables (`shops`, `brands`, `categories`, `snacks`, `prices`) plus one
serial sequence per table.  Dates/timestamps are kept as their ISO text. -/

structure ShopRow where
  id : Nat
  name : String
  address : String
  phone : Option String
deriving Repr, DecidableEq

structure BrandRow where
  id : Nat
  name : String
deriving Repr, DecidableEq

structure CategoryRow where
  id : Nat
  name : String
deriving Repr, DecidableEq

structure SnackRow where
  id : Nat
  name : String
  brand_id : Nat
  category_id : Nat
  description : Option String
  spec : Option String
  barcode : Option String
  created_at : String
deriving Repr, DecidableEq

structure PriceRow where
  id : Nat
  shop_id : Nat
  snack_id : Nat
  price : Dec
  discount_price : Option Dec
  validLower : String
  validUpper : Option String
  created_at : String
  updated_at : String
deriving Repr, DecidableEq

structure Db where
  shops : List ShopRow
  brands : List BrandRow
  categories : List CategoryRow
  snacks : List SnackRow
  prices : List PriceRow
  shopSeq : Nat
  brandSeq : Nat
  categorySeq : Nat
  snackSeq : Nat
  priceSeq : Nat
deriving Repr, DecidableEq

def optText : Option String → DbValue
  | none => .vNull
  | some s => .vText s

def optDec : Option Dec → DbValue
  | none => .vNull
  | some d => .vDec d

/-! ## Statement embeddings

Each SQL statement the service issues becomes one function acting on a `Db`
(the tentative state of the open transaction) that either returns the new
tentative state together with what the cursor observes, or raises the
`PgError` the store would report. -/

/-- What the cursor observes after a successful statement: a result row
(`cursor.description` is set and `fetchone()` finds one), an empty result set
of a `RETURNING` statement, or a plain command with only a `rowcount`
(`cursor.description` is `None`). -/
inductive CursorOutcome where
  | returnedRow (row : Row)
  | returnedNone
  | command (rowcount : Nat)
deriving Repr, DecidableEq

/-- `INSERT INTO shops (name, address, phone) VALUES ... RETURNING *;`
(line 236): enforces the unique-address constraint `shops_address_key`,
assigns the next serial id, returns the whole new row. -/
def insertShopStmt (name address : String) (phone : Option String) (db : Db) :
    Except PgError (Db × CursorOutcome) :=
  if db.shops.any (fun s => s.address == address) then
    .error (uniqueViolation "shops_address_key")
  else
    let row : ShopRow := ⟨db.shopSeq, name, address, phone⟩
    .ok ({ db with shops := db.shops ++ [row], shopSeq := db.shopSeq + 1 },
         .returnedRow [("id", .vInt (row.id : Int)), ("name", .vText name),
                       ("address", .vText address), ("phone", optText phone)])

/-- `DELETE FROM prices WHERE id = %(price_id)s` (line 322): no result set;
`rowcount` counts the removed rows. -/
def deletePriceStmt (price_id : Nat) (db : Db) :
    Except PgError (Db × CursorOutcome) :=
  let remaining := db.prices.filter (fun p => p.id != price_id)
  .ok ({ db with prices := remaining },
       .command (db.prices.length - remaining.length))

/-- `DELETE FROM prices WHERE id = ANY(%(price_ids)s);` (line 328). -/
def deleteManyPricesStmt (price_ids : List Nat) (db : Db) :
    Except PgError (Db × CursorOutcome) :=
  let remaining := db.prices.filter (fun p => !(price_ids.contains p.id))
  .ok ({ db with prices := remaining },
       .command (db.prices.length - remaining.length))

/-- `DELETE FROM snacks WHERE id = %(snack_id)s` (line 333): the schema's
`ON DELETE CASCADE` removes the dependent price rows; `rowcount` counts only
the snacks removed. -/
def deleteSnackStmt (snack_id : Nat) (db : Db) :
    Except PgError (Db × CursorOutcome) :=
  let remainingSnacks := db.snacks.filter (fun s => s.id != snack_id)
  let remainingPrices := db.prices.filter (fun p => p.snack_id != snack_id)
  .ok ({ db with snacks := remainingSnacks, prices := remainingPrices },
       .command (db.snacks.length - remainingSnacks.length))

/-- `DELETE FROM shops WHERE id = %(shop_id)s` (line 338), with the cascade
to dependent prices. -/
def deleteShopStmt (shop_id : Nat) (db : Db) :
    Except PgError (Db × CursorOutcome) :=
  let remainingShops := db.shops.filter (fun s => s.id != shop_id)
  let remainingPrices := db.prices.filter (fun p => p.shop_id != shop_id)
  .ok ({ db with shops := remainingShops, prices := remainingPrices },
       .command (db.shops.length - remainingShops.length))

/-! ## `_execute_query` and `_execute_crud` -/

/-- A structured result of `_execute_crud`: the four dictionary shapes the
method can return (lines 98, 101, 105, 110-112). -/
inductive CrudResult where
  | success (data : Row)
  | warning (msg : String)
  | successCount (rows_affected : Nat)
  | error (msg : String)
deriving Repr, DecidableEq

/-- `_execute_crud` (lines 82-115).  `connOk = false` models an unreachable
store: `_get_db_connection` raises `OperationalError` (line 55) which, being
a subclass of `psycopg2.Error`, is caught by `except Error` at line 106
(`conn` is still `None`, so no rollback runs; an `OperationalError` carries
no `pgcode`) and converted to a structured error result.  A statement error
rolls back the tentative state and is converted likewise, with SQLSTATE
`23505` reported naming `e.diag.constraint_name` (Python renders a missing
name as `None`).  On success the transaction commits and the returned row,
if any, is normalised.  No exception escapes this method. -/
def execute_crud (connOk : Bool) (db : Db)
    (stmt : Db → Except PgError (Db × CursorOutcome)) :
    Except PgError (Db × CrudResult) :=
  if !connOk then
    .ok (db, .error ("Operation failed: " ++ connectionError.text))
  else
    match stmt db with
    | .ok (db', .returnedRow row) => .ok (db', .success (normalizeRow row))
    | .ok (db', .returnedNone) =>
        .ok (db', .warning "Operation executed, but no matching record was found.")
    | .ok (db', .command n) => .ok (db', .successCount n)
    | .error e =>
        if e.pgcode = some "23505" then
          .ok (db, .error ("Uniqueness constraint violated: "
                ++ e.constraintName.getD "None"
                ++ ". A similar record already exists."))
        else
          .ok (db, .error ("Operation failed: " ++ e.text))

/-- `_execute_query` (lines 60-80).  As in `execute_crud`, a connection
failure is caught by `except Error` (line 75) and converted into a one-row
error result, as is any store error; successful result rows go through the
normalisation loop.  Queries leave the store unchanged. -/
def execute_query (connOk : Bool) (db : Db)
    (q : Db → Except PgError (List Row)) : Except PgError (List Row) :=
  if !connOk then
    .ok [[("status", .vText "error"),
          ("message", .vText ("Query failed: " ++ connectionError.text))]]
  else
    match q db with
    | .ok rows => .ok (rows.map normalizeRow)
    | .error e =>
        .ok [[("status", .vText "error"),
              ("message", .vText ("Query failed: " ++ e.text))]]

/-! ## Helper methods -/

/-- `_get_or_create_id(cursor, 'brands', name)` (lines 118-126), acting on
the tentative transaction state: `SELECT id FROM brands WHERE name = ...`;
if absent, `INSERT INTO brands (name) VALUES ... RETURNING id`. -/
def get_or_create_brand (db : Db) (name : String) : Db × Nat :=
  match db.brands.find? (fun b => b.name == name) with
  | some b => (db, b.id)
  | none =>
      ({ db with brands := db.brands ++ [⟨db.brandSeq, name⟩],
                 brandSeq := db.brandSeq + 1 },
       db.brandSeq)

/-- `_get_or_create_id(cursor, 'categories', name)` (lines 118-126). -/
def get_or_create_category (db : Db) (name : String) : Db × Nat :=
  match db.categories.find? (fun c => c.name == name) with
  | some c => (db, c.id)
  | none =>
      ({ db with categories := db.categories ++ [⟨db.categorySeq, name⟩],
                 categorySeq := db.categorySeq + 1 },
       db.categorySeq)

/-- `_construct_daterange` (lines 128-131): start defaults to
`date.today()`, a missing (or empty) end renders as the empty string, giving
the literal `[start,end]`. -/
def construct_daterange (today : String) (start_date end_date : Option String) :
    String :=
  "[" ++ start_date.getD today ++ "," ++ (end_date.getD "") ++ "]"

/-- The store's parse of the facade's `[start,end]` literal: `lower` is the
text before the comma, `upper` the text after it, the empty upper bound
denoting an unbounded interval.  (The store's canonicalisation of a bounded
inclusive upper bound to the following day is not modelled; no claim reads a
bounded upper bound back.) -/
def parseRangeLiteral (s : String) : String × Option String :=
  let inner := (s.toList.drop 1).dropLast
  let lower := inner.takeWhile (fun c => c != ',')
  let upper := (inner.dropWhile (fun c => c != ',')).drop 1
  (lower.asString, if upper.isEmpty then none else some upper.asString)

/-! ## CRUD tools -/

/-- `add_shop` (lines 232-237): one `INSERT ... RETURNING *` through
`_execute_crud`. -/
def add_shop (connOk : Bool) (db : Db) (name address : String)
    (phone : Option String) : Except PgError (Db × CrudResult) :=
  execute_crud connOk db (insertShopStmt name address phone)

/-- `INSERT INTO snacks ... RETURNING *;` (lines 250-255): enforces the
unique `(name, brand_id, spec)` combination — the schema constraint behind
the duplicate-snack message at line 273 — assigns the next serial id and the
timestamp default, and returns the new row.  `storeErr` injects any further
error the store may raise on this statement (the claims quantify over
"whenever the snack insert fails", which includes causes outside the
schema). -/
def insertSnackStmt (db : Db) (today : String) (storeErr : Option PgError)
    (name : String) (brand_id category_id : Nat)
    (description spec barcode : Option String) :
    Except PgError (Db × SnackRow) :=
  match storeErr with
  | some e => .error e
  | none =>
    if db.snacks.any (fun s =>
        s.name == name && s.brand_id == brand_id && s.spec == spec) then
      .error (uniqueViolation "snacks_name_brand_id_spec_key")
    else
      let row : SnackRow :=
        { id := db.snackSeq, name := name,
          brand_id := brand_id, category_id := category_id,
          description := description, spec := spec, barcode := barcode,
          created_at := today }
      .ok ({ db with snacks := db.snacks ++ [row],
                     snackSeq := db.snackSeq + 1 }, row)

/-- `dict(new_snack_row)` for the `RETURNING *` of the snacks insert. -/
def snackRowToRow (s : SnackRow) : Row :=
  [("id", .vInt (s.id : Int)), ("name", .vText s.name),
   ("brand_id", .vInt (s.brand_id : Int)),
   ("category_id", .vInt (s.category_id : Int)),
   ("description", optText s.description), ("spec", optText s.spec),
   ("barcode", optText s.barcode), ("created_at", .vDatetime s.created_at)]

/-- `add_snack` (lines 239-280): one connection; brand and category resolved
by `_get_or_create_id` through the same cursor — so inside the same
transaction — then the snack insert; commit only at line 263, after the
returned row is read.  On any `psycopg2.Error` (a connection failure
included, since `OperationalError` is a subclass of `Error`) the transaction
is rolled back — discarding any brand/category rows created above — and a
structured error is returned, the `23505` case with the fixed
likely-duplicate message.  The defensive `not new_snack_row` branch
(lines 257-261) cannot fire here: a non-raising `INSERT ... RETURNING`
always yields a row.  The `except Exception` branch (275-278) has no
non-psycopg2 exceptions to catch in this model.  The success row gets the
`brand`/`category` names attached (lines 264-265) before the date-only
conversion loop (266-267). -/
def add_snack (connOk : Bool) (db : Db) (today : String)
    (storeErr : Option PgError) (name brand category : String)
    (description spec barcode : Option String) :
    Except PgError (Db × CrudResult) :=
  if !connOk then
    .ok (db, .error ("Database error: " ++ connectionError.text))
  else
    let r1 := get_or_create_brand db brand
    let r2 := get_or_create_category r1.1 category
    match insertSnackStmt r2.1 today storeErr name r1.2 r2.2
        description spec barcode with
    | .ok (db3, row) =>
        let new_snack := snackRowToRow row
          ++ [("brand", .vText brand), ("category", .vText category)]
        .ok (db3, .success (normalizeDatesOnly new_snack))
    | .error e =>
        if e.pgcode = some "23505" then
          .ok (db, .error
            "A snack with the same brand, name, and spec likely already exists.")
        else
          .ok (db, .error ("Database error: " ++ e.text))

/-- `INSERT INTO prices ... RETURNING id, shop_id, snack_id, price,
discount_price, lower(valid_period) AS start_date, upper(valid_period) AS
end_date;` (lines 287-289): enforces the two foreign keys, assigns the next
serial id and the timestamp defaults, and returns the requested columns,
with a `NULL` `end_date` for an unbounded interval. -/
def insertPriceStmt (today : String) (shop_id snack_id : Nat) (price : Dec)
    (discount_price : Option Dec) (valid_period : String) (db : Db) :
    Except PgError (Db × CursorOutcome) :=
  if !(db.shops.any (fun s => s.id == shop_id)) then
    .error (fkViolation "prices_shop_id_fkey")
  else if !(db.snacks.any (fun s => s.id == snack_id)) then
    .error (fkViolation "prices_snack_id_fkey")
  else
    let b := parseRangeLiteral valid_period
    let row : PriceRow :=
      { id := db.priceSeq, shop_id := shop_id,
        snack_id := snack_id, price := price,
        discount_price := discount_price, validLower := b.1,
        validUpper := b.2, created_at := today, updated_at := today }
    .ok ({ db with prices := db.prices ++ [row], priceSeq := db.priceSeq + 1 },
         .returnedRow
           [("id", .vInt (row.id : Int)), ("shop_id", .vInt (shop_id : Int)),
            ("snack_id", .vInt (snack_id : Int)), ("price", .vDec price),
            ("discount_price", optDec discount_price),
            ("start_date", .vDate b.1),
            ("end_date", match b.2 with | none => .vNull | some u => .vDate u)])

/-- `add_price` (lines 282-291): build the validity literal with
`_construct_daterange`, then one insert through `_execute_crud`. -/
def add_price (connOk : Bool) (db : Db) (today : String)
    (shop_id snack_id : Nat) (price : Dec) (discount_price : Option Dec)
    (start_date end_date : Option String) : Except PgError (Db × CrudResult) :=
  let valid_period := construct_daterange today start_date end_date
  execute_crud connOk db
    (insertPriceStmt today shop_id snack_id price discount_price valid_period)

/-! ## Batch tool -/

/-- One record of `prices_data`, the input shape of `add_prices_batch`. -/
structure PriceInsertReq where
  shop_id : Nat
  snack_id : Nat
  price : Dec
  discount_price : Option Dec
  start_date : Option String
  end_date : Option String
deriving Repr, DecidableEq

/-- One tuple of `data_to_insert` (lines 299-301). -/
structure PriceVals where
  shop_id : Nat
  snack_id : Nat
  price : Dec
  discount_price : Option Dec
  valid_period : String
deriving Repr, DecidableEq

/-- One value row of the multi-row `INSERT INTO prices ... VALUES %s`
(line 302): the same foreign-key checks and defaults as `insertPriceStmt`,
without a `RETURNING` clause. -/
def insertPriceVals (today : String) (db : Db) (v : PriceVals) :
    Except PgError Db :=
  if !(db.shops.any (fun s => s.id == v.shop_id)) then
    .error (fkViolation "prices_shop_id_fkey")
  else if !(db.snacks.any (fun s => s.id == v.snack_id)) then
    .error (fkViolation "prices_snack_id_fkey")
  else
    let b := parseRangeLiteral v.valid_period
    let row : PriceRow :=
      { id := db.priceSeq, shop_id := v.shop_id,
        snack_id := v.snack_id, price := v.price,
        discount_price := v.discount_price, validLower := b.1,
        validUpper := b.2, created_at := today, updated_at := today }
    .ok { db with prices := db.prices ++ [row], priceSeq := db.priceSeq + 1 }

/-- One page of `execute_values`: a single multi-row `INSERT` statement.  It
inserts every value row, or raises at the first offending row and inserts
nothing (a single statement is atomic). -/
def insertPricesPage (today : String) (db : Db) :
    List PriceVals → Except PgError Db
  | [] => .ok db
  | v :: vs =>
    match insertPriceVals today db v with
    | .error e => .error e
    | .ok db' =>
      match insertPricesPage today db' vs with
      | .error e => .error e
      | .ok db'' => .ok db''

/-- The page loop of `psycopg2.extras.execute_values`: one `INSERT` per page
through the same cursor, inside the one open transaction.  The returned
count is `cursor.rowcount` afterwards — the row count of the *last* executed
statement only. -/
def executeValuesPages (today : String) (db : Db) :
    List (List PriceVals) → Except PgError (Db × Nat)
  | [] => .ok (db, 0)
  | [page] =>
    match insertPricesPage today db page with
    | .error e => .error e
    | .ok db' => .ok (db', page.length)
  | page :: rest =>
    match insertPricesPage today db page with
    | .error e => .error e
    | .ok db' => executeValuesPages today db' rest

/-- A structured result of `add_prices_batch` (lines 298, 309, 313); the
success message is `"Successfully added {count} price records."`. -/
inductive BatchResult where
  | warning (msg : String)
  | success (count : Nat)
  | error (msg : String)
deriving Repr, DecidableEq

/-- One element of the `data_to_insert` comprehension (lines 299-301). -/
def reqToVals (today : String) (item : PriceInsertReq) : PriceVals :=
  { shop_id := item.shop_id, snack_id := item.snack_id,
    price := item.price, discount_price := item.discount_price,
    valid_period := construct_daterange today item.start_date item.end_date }

/-- `add_prices_batch` (lines 295-315): empty input returns a warning before
any connection is opened; otherwise the date ranges are materialised, the
rows go through `execute_values` (default page size 100, `chunksOf1 99`) in
one transaction, and the reported count is `cursor.rowcount`.  On any
`psycopg2.Error` — a connection failure included — the transaction is rolled
back and a structured error returned. -/
def add_prices_batch (connOk : Bool) (db : Db) (today : String)
    (prices_data : List PriceInsertReq) : Except PgError (Db × BatchResult) :=
  if prices_data.isEmpty then
    .ok (db, .warning "No price data provided.")
  else
    let data_to_insert : List PriceVals := prices_data.map (reqToVals today)
    if !connOk then
      .ok (db, .error ("Batch add price failed: " ++ connectionError.text))
    else
      match executeValuesPages today db (chunksOf1 99 data_to_insert) with
      | .ok (db', n) => .ok (db', .success n)
      | .error e => .ok (db, .error ("Batch add price failed: " ++ e.text))

/-! ## Delete tools (lines 318-338) -/

/-- `delete_price` (lines 319-322). -/
def delete_price (connOk : Bool) (db : Db) (price_id : Nat) :
    Except PgError (Db × CrudResult) :=
  execute_crud connOk db (deletePriceStmt price_id)

/-- `batch_delete_prices` (lines 324-328): empty input returns a warning
before any connection is opened. -/
def batch_delete_prices (connOk : Bool) (db : Db) (price_ids : List Nat) :
    Except PgError (Db × CrudResult) :=
  if price_ids.isEmpty then .ok (db, .warning "No price IDs provided.")
  else execute_crud connOk db (deleteManyPricesStmt price_ids)

/-- `delete_snack` (lines 330-333). -/
def delete_snack (connOk : Bool) (db : Db) (snack_id : Nat) :
    Except PgError (Db × CrudResult) :=
  execute_crud connOk db (deleteSnackStmt snack_id)

/-- `delete_shop` (lines 335-338). -/
def delete_shop (connOk : Bool) (db : Db) (shop_id : Nat) :
    Except PgError (Db × CrudResult) :=
  execute_crud connOk db (deleteShopStmt shop_id)

/-! ## The query tool

`query_snack_prices` (lines 136-200) assembles one SQL statement from fixed
clause literals plus two whitelisted `ORDER BY` fragments, binds everything
else as parameters, and runs it through `_execute_query`.  We embed both the
textual assembly (for the interpolation-safety claim) and the statement's
semantics (for the result claims). -/

/-- The keyword arguments of `query_snack_prices`. -/
structure QueryParams where
  shop_name : Option String
  shop_id : Option Nat
  snack_name : Option String
  min_price : Option Dec
  max_price : Option Dec
  category : Option String
  spec : Option String
  min_recorded_date : Option String
  max_recorded_date : Option String
  limit : Nat
  order_by : String
  order_direction : String
deriving Repr, DecidableEq

/-- Python truthiness of an optional string (`if params[k]:` at lines
177-178): `None` and the empty string are falsy. -/
def truthyOpt : Option String → Bool
  | none => false
  | some s => !(s == "")

/-- The five always-present clause literals of lines 160-166. -/
def baseWhereClauseTexts : List String :=
  ["(%(snack_name)s IS NULL OR sn.name ILIKE %(snack_name_like)s)",
   "(%(min_price)s IS NULL OR p.price >= %(min_price)s)",
   "(%(max_price)s IS NULL OR p.price <= %(max_price)s)",
   "(%(category)s IS NULL OR c.name ILIKE %(category_like)s)",
   "(%(spec)s IS NULL OR sn.spec ILIKE %(spec_like)s)"]

/-- The clause-text assembly of lines 160-179: the base clauses, then the
shop clause (`shop_id` checked first with `is not None`, line 168; otherwise
`shop_name`, line 170), then the two recorded-date clauses guarded by Python
truthiness.  Every element is a fixed literal; the caller's values are only
ever bound as parameters. -/
def whereClauseTexts (p : QueryParams) : List String :=
  let cls := baseWhereClauseTexts
  let cls :=
    if p.shop_id.isSome then cls ++ ["s.id = %(shop_id)s"]
    else if p.shop_name.isSome then cls ++ ["s.name ILIKE %(shop_name_like)s"]
    else cls
  let cls :=
    if truthyOpt p.min_recorded_date then
      cls ++ ["p.created_at >= %(min_recorded_date)s"]
    else cls
  if truthyOpt p.max_recorded_date then
    cls ++ ["p.created_at <= %(max_recorded_date)s"]
  else cls

/-- `sort_column_map.get(order_by, "p.updated_at")` (lines 181-186). -/
def sort_column_map_get (order_by : String) : String :=
  if order_by == "price" then "p.price"
  else if order_by == "updated_at" then "p.updated_at"
  else if order_by == "snack_name" then "sn.name"
  else "p.updated_at"

/-- Python's `str.upper`, character-wise (they agree on the ASCII text the
code compares against). -/
def pyUpper (s : String) : String :=
  (s.toList.map Char.toUpper).asString

/-- `"ASC" if order_direction.upper() == "ASC" else "DESC"` (line 187). -/
def sortDirectionOf (order_direction : String) : String :=
  if pyUpper order_direction == "ASC" then "ASC" else "DESC"

/-- The `ORDER BY` fragment interpolated into the statement (line 197). -/
def orderByFragment (order_by order_direction : String) : String :=
  sort_column_map_get order_by ++ " " ++ sortDirectionOf order_direction

/-- One row of the four-way join of line 193-195 (all joins inner). -/
structure JoinedRow where
  shop : ShopRow
  snack : SnackRow
  brand : BrandRow
  category : CategoryRow
  price : PriceRow
deriving Repr, DecidableEq

/-- `FROM prices p JOIN shops s ... JOIN snacks sn ... JOIN brands b ...
JOIN categories c ...`: each price row joined with its referenced rows;
a price whose references dangle simply produces no joined row. -/
def joinedRows (db : Db) : List JoinedRow :=
  db.prices.filterMap (fun p =>
    (db.shops.find? (fun s => s.id == p.shop_id)).bind (fun s =>
    (db.snacks.find? (fun sn => sn.id == p.snack_id)).bind (fun sn =>
    (db.brands.find? (fun b => b.id == sn.brand_id)).bind (fun b =>
    (db.categories.find? (fun c => c.id == sn.category_id)).map (fun c =>
      { shop := s, snack := sn, brand := b, category := c, price := p })))))

/-- The `WHERE` conjunction, clause by clause.  Each optional filter is
"absent OR matches"; a `NULL` `sn.spec` fails an `ILIKE` test; the shop
clause mirrors the `if shop_id is not None / elif shop_name is not None`
of lines 168-172; the recorded-date clauses are present only when their
parameter is truthy. -/
def rowPassesFilters (p : QueryParams) (r : JoinedRow) : Bool :=
  (match p.snack_name with
   | none => true
   | some v => ilikeContains r.snack.name v) &&
  (match p.min_price with
   | none => true
   | some m => Dec.le m r.price.price) &&
  (match p.max_price with
   | none => true
   | some m => Dec.le r.price.price m) &&
  (match p.category with
   | none => true
   | some v => ilikeContains r.category.name v) &&
  (match p.spec with
   | none => true
   | some v => match r.snack.spec with
               | none => false
               | some s => ilikeContains s v) &&
  (match p.shop_id with
   | some i => r.shop.id == i
   | none => match p.shop_name with
             | some nm => ilikeContains r.shop.name nm
             | none => true) &&
  (match p.min_recorded_date with
   | none => true
   | some v => if v == "" then true else strLe v r.price.created_at) &&
  (match p.max_recorded_date with
   | none => true
   | some v => if v == "" then true else strLe r.price.created_at v)

/-- The `ORDER BY` comparison keyed by the whitelisted column text. -/
def orderLe (col : String) (a b : JoinedRow) : Bool :=
  if col == "p.price" then Dec.le a.price.price b.price.price
  else if col == "sn.name" then strLe a.snack.name b.snack.name
  else strLe a.price.updated_at b.price.updated_at

/-- The `SELECT` list of lines 190-192, as the cursor would hand it over. -/
def selectRow (r : JoinedRow) : Row :=
  [("shop_name", .vText r.shop.name), ("shop_address", .vText r.shop.address),
   ("snack_name", .vText r.snack.name), ("brand", .vText r.brand.name),
   ("category", .vText r.category.name), ("spec", optText r.snack.spec),
   ("price", .vDec r.price.price),
   ("discount_price", optDec r.price.discount_price),
   ("start_date", .vDate r.price.validLower),
   ("end_date", match r.price.validUpper with
                | none => .vNull
                | some u => .vDate u),
   ("created_at", .vDatetime r.price.created_at),
   ("updated_at", .vDatetime r.price.updated_at),
   ("price_id", .vInt (r.price.id : Int))]

/-- The semantics of the one statement `query_snack_prices` assembles:
join, filter, order by the whitelisted fragment, `LIMIT %(limit)s`,
project the `SELECT` list. -/
def querySnackPricesStmt (p : QueryParams) (db : Db) :
    Except PgError (List Row) :=
  let matched := (joinedRows db).filter (rowPassesFilters p)
  let col := sort_column_map_get p.order_by
  let sorted :=
    if sortDirectionOf p.order_direction == "ASC" then
      sortBy (orderLe col) matched
    else
      sortBy (fun a b => orderLe col b a) matched
  .ok ((sorted.take p.limit).map selectRow)

/-- `query_snack_prices` (lines 136-200): the assembled statement through
`_execute_query`. -/
def query_snack_prices (connOk : Bool) (db : Db) (p : QueryParams) :
    Except PgError (List Row) :=
  execute_query connOk db (querySnackPricesStmt p)

/-! ## The fixed-statement query tools (lines 202-228) -/

/-- `ORDER BY name, address` on shops. -/
def shopOrderLe (a b : ShopRow) : Bool :=
  if a.name == b.name then strLe a.address b.address else strLe a.name b.name

/-- `get_shop_list` (lines 202-205): `SELECT id, name, address, phone FROM
shops ORDER BY name, address`. -/
def get_shop_list (connOk : Bool) (db : Db) : Except PgError (List Row) :=
  execute_query connOk db (fun d =>
    .ok ((sortBy shopOrderLe d.shops).map (fun s =>
      [("id", .vInt (s.id : Int)), ("name", .vText s.name),
       ("address", .vText s.address), ("phone", optText s.phone)])))

/-- `get_snack_list` (lines 207-217): snacks inner-joined with brand and
category names, `ORDER BY sn.name`. -/
def get_snack_list (connOk : Bool) (db : Db) : Except PgError (List Row) :=
  execute_query connOk db (fun d =>
    .ok ((sortBy (fun (a b : SnackRow) => strLe a.name b.name)
            d.snacks).filterMap (fun sn =>
      (d.brands.find? (fun b => b.id == sn.brand_id)).bind (fun b =>
      (d.categories.find? (fun c => c.id == sn.category_id)).map (fun c =>
        [("id", .vInt (sn.id : Int)), ("name", .vText sn.name),
         ("brand", .vText b.name), ("category", .vText c.name),
         ("description", optText sn.description), ("spec", optText sn.spec),
         ("barcode", optText sn.barcode)])))))

/-- `get_snack_categories` (lines 219-228): per-category counts over a
`LEFT JOIN` (zero-snack categories included), `ORDER BY c.name`. -/
def get_snack_categories (connOk : Bool) (db : Db) :
    Except PgError (List Row) :=
  execute_query connOk db (fun d =>
    .ok ((sortBy (fun (a b : CategoryRow) => strLe a.name b.name)
            d.categories).map (fun c =>
      [("category", .vText c.name),
       ("count", .vInt ((d.snacks.filter
          (fun sn => sn.category_id == c.id)).length : Int))])))

/-! ## Derived observations used in the claim statements -/

/-- A value is rendered when it is no longer a raw `Decimal`, `date` or
`datetime` — i.e. the conversion loops have turned it into text. -/
def valueRendered : DbValue → Bool
  | .vDec _ => false
  | .vDate _ => false
  | .vDatetime _ => false
  | _ => true

/-- Every cell of the row is rendered. -/
def rowRendered (r : Row) : Bool :=
  r.all (fun kv => valueRendered kv.2)

/-- `true` when the call returned a value (no exception escaped to the
remote-procedure framework). -/
def neverRaises {α : Type} : Except PgError α → Bool
  | .ok _ => true
  | .error _ => false

/-- The store state a CRUD call left behind (`none` if it raised). -/
def crudDb : Except PgError (Db × CrudResult) → Option Db
  | .ok (d, _) => some d
  | .error _ => none

/-- The call returned a `status: "error"` dictionary. -/
def crudIsError : Except PgError (Db × CrudResult) → Bool
  | .ok (_, .error _) => true
  | _ => false

/-- The count a successful `add_prices_batch` reported in its message. -/
def batchReported : Except PgError (Db × BatchResult) → Option Nat
  | .ok (_, .success n) => some n
  | _ => none

/-- The number of price rows in the store after the batch call. -/
def batchDbPricesLen : Except PgError (Db × BatchResult) → Option Nat
  | .ok (d, _) => some d.prices.length
  | .error _ => none

/-- The store state a batch call left behind (`none` if it raised). -/
def batchDb : Except PgError (Db × BatchResult) → Option Db
  | .ok (d, _) => some d
  | .error _ => none

/-- The batch call returned a `status: "error"` dictionary. -/
def batchIsError : Except PgError (Db × BatchResult) → Bool
  | .ok (_, .error _) => true
  | _ => false

/-- Both foreign keys of a batch record resolve: the store accepts it. -/
def reqFkOk (db : Db) (r : PriceInsertReq) : Prop :=
  db.shops.any (fun s => s.id == r.shop_id) = true ∧
  db.snacks.any (fun sn => sn.id == r.snack_id) = true

instance (db : Db) (r : PriceInsertReq) : Decidable (reqFkOk db r) := by
  unfold reqFkOk
  infer_instance

/-- Both foreign keys of a materialised value row resolve. -/
def valsFkOk (db : Db) (v : PriceVals) : Prop :=
  db.shops.any (fun s => s.id == v.shop_id) = true ∧
  db.snacks.any (fun sn => sn.id == v.snack_id) = true

instance (db : Db) (v : PriceVals) : Decidable (valsFkOk db v) := by
  unfold valsFkOk
  infer_instance

/-- Length of the last page (`cursor.rowcount` after the page loop when all
pages succeed; `0` for no pages). -/
def lastLen {α : Type} : List (List α) → Nat
  | [] => 0
  | [page] => page.length
  | _ :: rest => lastLen rest

/-! ## Concrete fixtures for witnesses and counterexamples -/

/-- An empty store. -/
def dbEmpty : Db := ⟨[], [], [], [], [], 1, 1, 1, 1, 1⟩

/-- A store with one shop, one brand, one category, one snack, no prices. -/
def dbEx : Db :=
  ⟨[⟨1, "A", "addr1", none⟩], [⟨1, "b"⟩], [⟨1, "c"⟩],
   [⟨1, "chips", 1, 1, none, none, none, "2026-01-01"⟩], [], 2, 2, 2, 2, 1⟩

/-- A valid batch record against `dbEx`. -/
def reqEx : PriceInsertReq := ⟨1, 1, ⟨350, 2⟩, none, none, none⟩

/-- Default query parameters (the Python keyword defaults). -/
def qpDefault : QueryParams :=
  ⟨none, none, none, none, none, none, none, none, none,
   100, "updated_at", "DESC"⟩

/-- The call returned the no-matching-record warning shape. -/
def crudIsWarning : Except PgError (Db × CrudResult) → Bool
  | .ok (_, .warning _) => true
  | _ => false

/-! # Theorems -/

/-! ## Shared lemmas -/

theorem rowRendered_normalizeRow (r : Row) :
    rowRendered (normalizeRow r) = true := by
  induction r with
  | nil => rfl
  | cons kv rest ih =>
    simp only [normalizeRow, rowRendered, List.map_cons, List.all_cons,
      Bool.and_eq_true] at ih ⊢
    exact ⟨by cases kv.2 <;> rfl, ih⟩

theorem execute_crud_never_raises (c : Bool) (db : Db)
    (stmt : Db → Except PgError (Db × CursorOutcome)) :
    neverRaises (execute_crud c db stmt) = true := by
  unfold execute_crud
  cases c with
  | false => rfl
  | true =>
    simp only [Bool.not_true, Bool.false_eq_true, if_false]
    cases hs : stmt db with
    | ok p =>
      obtain ⟨db', out⟩ := p
      cases out <;> rfl
    | error e =>
      by_cases h : e.pgcode = some "23505" <;> simp [h, neverRaises]

theorem execute_query_never_raises (c : Bool) (db : Db)
    (q : Db → Except PgError (List Row)) :
    neverRaises (execute_query c db q) = true := by
  unfold execute_query
  cases c with
  | false => rfl
  | true =>
    simp only [Bool.not_true, Bool.false_eq_true, if_false]
    cases hs : q db <;> rfl

theorem add_snack_never_raises (c : Bool) (db : Db) (t : String)
    (se : Option PgError) (n b cat : String) (d s bc : Option String) :
    neverRaises (add_snack c db t se n b cat d s bc) = true := by
  unfold add_snack
  cases c with
  | false => rfl
  | true =>
    simp only [Bool.not_true, Bool.false_eq_true, if_false]
    cases hs : insertSnackStmt (get_or_create_category
        (get_or_create_brand db b).1 cat).1 t se n
        (get_or_create_brand db b).2
        (get_or_create_category (get_or_create_brand db b).1 cat).2 d s bc with
    | ok p => obtain ⟨db3, row⟩ := p; rfl
    | error e =>
      by_cases h : e.pgcode = some "23505" <;> simp [h, neverRaises]

theorem add_prices_batch_never_raises (c : Bool) (db : Db) (t : String)
    (data : List PriceInsertReq) :
    neverRaises (add_prices_batch c db t data) = true := by
  unfold add_prices_batch
  by_cases he : data.isEmpty <;> simp only [he, if_true, if_false]
  · rfl
  · cases c with
    | false => rfl
    | true =>
      simp only [Bool.not_true, Bool.false_eq_true, if_false]
      cases hs : executeValuesPages t db (chunksOf1 99 (data.map (reqToVals t))) with
      | ok p => obtain ⟨db', n⟩ := p; rfl
      | error e => rfl

/-! ## Claim C1 -/

/-- C1, as stated, is false: a failed connection acquisition does *not*
propagate.  `psycopg2.OperationalError` is a subclass of `psycopg2.Error`,
and `_get_db_connection()` is called *inside* the `try` of every tool, so
the `except Error` clause catches the connection failure and converts it to
a status-tagged error result.  Concretely, `delete_price` against an
unreachable store returns a structured error dictionary, raising nothing. -/
theorem c1_counterexample :
    neverRaises (delete_price false dbEx 1) = true ∧
    delete_price false dbEx 1 =
      .ok (dbEx, .error "Operation failed: could not connect to server") :=
  ⟨rfl, rfl⟩

/-- C1 (corrected): for every tool call, a connection-acquisition failure is
caught like any other store error and reported as a status-tagged structured
error result, and no store error at all propagates to the caller as an
exception from any tool. -/
theorem c1_thm :
    (∀ (c : Bool) (db : Db) (p : QueryParams),
      neverRaises (query_snack_prices c db p) = true) ∧
    (∀ (c : Bool) (db : Db), neverRaises (get_shop_list c db) = true) ∧
    (∀ (c : Bool) (db : Db), neverRaises (get_snack_list c db) = true) ∧
    (∀ (c : Bool) (db : Db), neverRaises (get_snack_categories c db) = true) ∧
    (∀ (c : Bool) (db : Db) (n a : String) (ph : Option String),
      neverRaises (add_shop c db n a ph) = true) ∧
    (∀ (c : Bool) (db : Db) (t : String) (se : Option PgError)
       (n b cat : String) (d s bc : Option String),
      neverRaises (add_snack c db t se n b cat d s bc) = true) ∧
    (∀ (c : Bool) (db : Db) (t : String) (si sni : Nat) (pr : Dec)
       (dp : Option Dec) (sd ed : Option String),
      neverRaises (add_price c db t si sni pr dp sd ed) = true) ∧
    (∀ (c : Bool) (db : Db) (t : String) (data : List PriceInsertReq),
      neverRaises (add_prices_batch c db t data) = true) ∧
    (∀ (c : Bool) (db : Db) (pid : Nat),
      neverRaises (delete_price c db pid) = true) ∧
    (∀ (c : Bool) (db : Db) (ids : List Nat),
      neverRaises (batch_delete_prices c db ids) = true) ∧
    (∀ (c : Bool) (db : Db) (sid : Nat),
      neverRaises (delete_snack c db sid) = true) ∧
    (∀ (c : Bool) (db : Db) (sid : Nat),
      neverRaises (delete_shop c db sid) = true) ∧
    (∀ (db : Db) (p : QueryParams),
      query_snack_prices false db p =
        .ok [[("status", .vText "error"),
              ("message", .vText "Query failed: could not connect to server")]]) ∧
    (∀ (db : Db) (n a : String) (ph : Option String),
      add_shop false db n a ph =
        .ok (db, .error "Operation failed: could not connect to server")) ∧
    (∀ (db : Db) (t : String) (se : Option PgError) (n b cat : String)
       (d s bc : Option String),
      add_snack false db t se n b cat d s bc =
        .ok (db, .error "Database error: could not connect to server")) ∧
    (∀ (db : Db) (t : String) (si sni : Nat) (pr : Dec) (dp : Option Dec)
       (sd ed : Option String),
      add_price false db t si sni pr dp sd ed =
        .ok (db, .error "Operation failed: could not connect to server")) ∧
    (∀ (db : Db) (t : String) (data : List PriceInsertReq), data ≠ [] →
      add_prices_batch false db t data =
        .ok (db, .error "Batch add price failed: could not connect to server")) ∧
    (∀ (db : Db) (pid : Nat),
      delete_price false db pid =
        .ok (db, .error "Operation failed: could not connect to server")) ∧
    (∀ (db : Db) (ids : List Nat), ids ≠ [] →
      batch_delete_prices false db ids =
        .ok (db, .error "Operation failed: could not connect to server")) ∧
    (∀ (db : Db) (sid : Nat),
      delete_snack false db sid =
        .ok (db, .error "Operation failed: could not connect to server")) ∧
    (∀ (db : Db) (sid : Nat),
      delete_shop false db sid =
        .ok (db, .error "Operation failed: could not connect to server")) := by
  refine ⟨fun c db p => execute_query_never_raises c db _,
    fun c db => execute_query_never_raises c db _,
    fun c db => execute_query_never_raises c db _,
    fun c db => execute_query_never_raises c db _,
    fun c db n a ph => execute_crud_never_raises c db _,
    add_snack_never_raises,
    fun c db t si sni pr dp sd ed => execute_crud_never_raises c db _,
    add_prices_batch_never_raises,
    fun c db pid => execute_crud_never_raises c db _,
    ?_,
    fun c db sid => execute_crud_never_raises c db _,
    fun c db sid => execute_crud_never_raises c db _,
    fun db p => rfl, fun db n a ph => rfl,
    fun db t se n b cat d s bc => rfl,
    fun db t si sni pr dp sd ed => rfl,
    ?_, fun db pid => rfl, ?_, fun db sid => rfl, fun db sid => rfl⟩
  · intro c db ids
    cases ids with
    | nil => rfl
    | cons i is => simp [batch_delete_prices, execute_crud_never_raises]
  · intro db t data hne
    cases data with
    | nil => exact absurd rfl hne
    | cons r rs => rfl
  · intro db ids hne
    cases ids with
    | nil => exact absurd rfl hne
    | cons i is => rfl

/-- Witness for C1: the connection-failure conjunct for `add_prices_batch`
applied at a concrete nonempty input. -/
theorem c1_witness :
    add_prices_batch false dbEx "2026-10-12" [reqEx] =
      .ok (dbEx, .error "Batch add price failed: could not connect to server") := by
  obtain ⟨-, -, -, -, -, -, -, -, -, -, -, -, -, -, -, -, hbatch, -⟩ := c1_thm
  exact hbatch dbEx "2026-10-12" [reqEx] (by simp)

/-! ## Claim C2 -/

/-- C2, as stated, is false: a targeted delete whose id matches nothing is
indeed not an error, but it returns the `status: "success"` shape with
`rows_affected = 0`, not a warning — the warning shape is produced only for
statements with a result set (`cursor.description` set) whose `fetchone()`
finds nothing, and the `DELETE` statements carry no `RETURNING` clause.
Concretely: deleting price id 999 from a store with no prices. -/
theorem c2_counterexample :
    delete_price true dbEx 999 = .ok (dbEx, .successCount 0) ∧
    crudIsWarning (delete_price true dbEx 999) = false :=
  ⟨rfl, rfl⟩

/-- C2 (corrected): for every targeted delete whose id matches no row, the
operation is not an error and raises nothing: it returns a structured
*success* result with `rows_affected = 0`, leaving the store unchanged.
(The foreign-key hypotheses for the cascading deletes are the store's
referential integrity: no price row can reference a snack/shop id that is
absent from its table.) -/
theorem c2_thm (db : Db) (pid : Nat) (bids : List Nat) (sid shid : Nat)
    (hp : ∀ p ∈ db.prices, p.id ≠ pid)
    (hb0 : bids ≠ [])
    (hb : ∀ p ∈ db.prices, ¬ p.id ∈ bids)
    (hs : ∀ s ∈ db.snacks, s.id ≠ sid)
    (hsp : ∀ p ∈ db.prices, p.snack_id ≠ sid)
    (hh : ∀ s ∈ db.shops, s.id ≠ shid)
    (hhp : ∀ p ∈ db.prices, p.shop_id ≠ shid) :
    delete_price true db pid = .ok (db, .successCount 0) ∧
    batch_delete_prices true db bids = .ok (db, .successCount 0) ∧
    delete_snack true db sid = .ok (db, .successCount 0) ∧
    delete_shop true db shid = .ok (db, .successCount 0) := by
  have hfp : db.prices.filter (fun p => p.id != pid) = db.prices :=
    List.filter_eq_self.mpr (fun p h => by simpa using hp p h)
  have hfb : db.prices.filter (fun p => !(bids.contains p.id)) = db.prices :=
    List.filter_eq_self.mpr (fun p h => by simpa using hb p h)
  have hfs : db.snacks.filter (fun s => s.id != sid) = db.snacks :=
    List.filter_eq_self.mpr (fun s h => by simpa using hs s h)
  have hfsp : db.prices.filter (fun p => p.snack_id != sid) = db.prices :=
    List.filter_eq_self.mpr (fun p h => by simpa using hsp p h)
  have hfh : db.shops.filter (fun s => s.id != shid) = db.shops :=
    List.filter_eq_self.mpr (fun s h => by simpa using hh s h)
  have hfhp : db.prices.filter (fun p => p.shop_id != shid) = db.prices :=
    List.filter_eq_self.mpr (fun p h => by simpa using hhp p h)
  refine ⟨?_, ?_, ?_, ?_⟩
  · simp [delete_price, execute_crud, deletePriceStmt, hfp]
  · have hbe : bids.isEmpty = false := by
      cases bids with
      | nil => exact absurd rfl hb0
      | cons b bs => rfl
    simp only [batch_delete_prices, hbe, Bool.false_eq_true, if_false,
      execute_crud, Bool.not_true, deleteManyPricesStmt]
    rw [hfb]
    simp
  · simp [delete_snack, execute_crud, deleteSnackStmt, hfs, hfsp]
  · simp [delete_shop, execute_crud, deleteShopStmt, hfh, hfhp]

/-- Witness for C2 at a concrete store with a snack and shop but no prices,
and ids that match nothing. -/
theorem c2_witness :
    delete_price true dbEx 999 = .ok (dbEx, .successCount 0) ∧
    batch_delete_prices true dbEx [5] = .ok (dbEx, .successCount 0) ∧
    delete_snack true dbEx 7 = .ok (dbEx, .successCount 0) ∧
    delete_shop true dbEx 7 = .ok (dbEx, .successCount 0) :=
  c2_thm dbEx 999 [5] 7 7 (by decide) (by decide) (by decide) (by decide)
    (by decide) (by decide) (by decide)

/-! ## Claim C8 -/

/-- C8: an `add_shop` whose address duplicates an existing shop's address is
rejected by the unique constraint (SQLSTATE 23505), caught, rolled back, and
reported as a structured error naming the violated constraint; no exception
reaches the caller and the store is unchanged. -/
theorem c8_thm (db : Db) (name address : String) (phone : Option String)
    (h : ∃ s ∈ db.shops, s.address = address) :
    add_shop true db name address phone =
      .ok (db, .error ("Uniqueness constraint violated: shops_address_key."
        ++ " A similar record already exists.")) := by
  have hany : db.shops.any (fun s => s.address == address) = true := by
    rcases h with ⟨s, hsmem, hse⟩
    exact List.any_eq_true.mpr ⟨s, hsmem, by simp [hse]⟩
  simp [add_shop, execute_crud, insertShopStmt, hany, uniqueViolation]

/-- Witness for C8: duplicating the address of the one shop in `dbEx`. -/
theorem c8_witness :
    add_shop true dbEx "Another" "addr1" none =
      .ok (dbEx, .error ("Uniqueness constraint violated: shops_address_key."
        ++ " A similar record already exists.")) :=
  c8_thm dbEx "Another" "addr1" none ⟨⟨1, "A", "addr1", none⟩, by decide, rfl⟩

/-! ## Claim C7 -/

theorem takeWhile_all_append (p : Char → Bool) :
    ∀ (l : List Char), l.all p = true → ∀ (x : Char), p x = false →
    ∀ (rest : List Char), (l ++ x :: rest).takeWhile p = l := by
  intro l
  induction l with
  | nil => intro _ x hx rest; simp [List.takeWhile_cons, hx]
  | cons a as ih =>
    intro hall x hx rest
    simp only [List.all_cons, Bool.and_eq_true] at hall
    simp [List.takeWhile_cons, hall.1, ih hall.2 x hx rest]

theorem dropWhile_all_append (p : Char → Bool) :
    ∀ (l : List Char), l.all p = true → ∀ (x : Char), p x = false →
    ∀ (rest : List Char), (l ++ x :: rest).dropWhile p = x :: rest := by
  intro l
  induction l with
  | nil => intro _ x hx rest; simp [List.dropWhile_cons, hx]
  | cons a as ih =>
    intro hall x hx rest
    simp only [List.all_cons, Bool.and_eq_true] at hall
    simp [List.dropWhile_cons, hall.1, ih hall.2 x hx rest]

/-- Parsing the literal `_construct_daterange` builds with both dates absent
recovers today's date as the lower bound and no upper bound (the date's ISO
text contains no comma). -/
theorem parse_construct_no_end (today : String)
    (h : today.toList.all (fun c => c != ',') = true) :
    parseRangeLiteral (construct_daterange today none none) = (today, none) := by
  have key : (construct_daterange today none none).toList
      = '[' :: (today.toList ++ [','] ++ [']']) := by
    show ("[" ++ today ++ "," ++ "" ++ "]").toList = _
    simp only [String.toList, String.data_append]
    simp [List.append_assoc]
  unfold parseRangeLiteral
  rw [key]
  simp only [List.drop_succ_cons, List.drop_zero]
  rw [List.dropLast_concat]
  rw [takeWhile_all_append (fun c => c != ',') today.toList h ',' (by decide) []]
  rw [dropWhile_all_append (fun c => c != ',') today.toList h ',' (by decide) []]
  simp only [String.toList, List.drop_succ_cons, List.drop_zero,
    List.isEmpty_nil, if_true]
  rfl

/-- C7: an `add_price` with both dates omitted creates a price row whose
validity interval starts at the current date and is open-ended, and returns
that interval (`start_date` today's ISO text, `end_date` null). -/
theorem c7_thm (db : Db) (today : String) (sid snid : Nat) (pr : Dec)
    (dp : Option Dec)
    (htoday : today.toList.all (fun c => c != ',') = true)
    (hshop : db.shops.any (fun s => s.id == sid) = true)
    (hsnack : db.snacks.any (fun sn => sn.id == snid) = true) :
    add_price true db today sid snid pr dp none none =
      .ok ({ db with
             prices := db.prices ++
               [{ id := db.priceSeq, shop_id := sid, snack_id := snid,
                  price := pr, discount_price := dp, validLower := today,
                  validUpper := none, created_at := today,
                  updated_at := today }],
             priceSeq := db.priceSeq + 1 },
           .success
             [("id", .vInt (db.priceSeq : Int)), ("shop_id", .vInt (sid : Int)),
              ("snack_id", .vInt (snid : Int)), ("price", .vText pr.str),
              ("discount_price", normalizeValue (optDec dp)),
              ("start_date", .vText today), ("end_date", .vNull)]) := by
  have hparse := parse_construct_no_end today htoday
  simp only [add_price, execute_crud, Bool.not_true, Bool.false_eq_true,
    if_false, insertPriceStmt, hshop, hsnack, hparse]
  simp [normalizeRow, normalizeValue]

/-- Witness for C7 against the concrete store `dbEx`. -/
theorem c7_witness :
    add_price true dbEx "2026-10-12" 1 1 ⟨350, 2⟩ none none none =
      .ok (⟨[⟨1, "A", "addr1", none⟩], [⟨1, "b"⟩], [⟨1, "c"⟩],
            [⟨1, "chips", 1, 1, none, none, none, "2026-01-01"⟩],
            [⟨1, 1, 1, ⟨350, 2⟩, none, "2026-10-12", none,
              "2026-10-12", "2026-10-12"⟩],
            2, 2, 2, 2, 2⟩,
           .success
             [("id", .vInt 1), ("shop_id", .vInt 1), ("snack_id", .vInt 1),
              ("price", .vText "3.50"), ("discount_price", .vNull),
              ("start_date", .vText "2026-10-12"), ("end_date", .vNull)]) := by
  have h := c7_thm dbEx "2026-10-12" 1 1 ⟨350, 2⟩ none
    (by decide) (by decide) (by decide)
  exact h

/-! ## Claim C5 -/

theorem get_or_create_brand_categories (db : Db) (b : String) :
    (get_or_create_brand db b).1.categories = db.categories := by
  unfold get_or_create_brand
  cases db.brands.find? (fun x => x.name == b) <;> rfl

theorem get_or_create_brand_snacks (db : Db) (b : String) :
    (get_or_create_brand db b).1.snacks = db.snacks := by
  unfold get_or_create_brand
  cases db.brands.find? (fun x => x.name == b) <;> rfl

theorem get_or_create_category_snacks (db : Db) (c : String) :
    (get_or_create_category db c).1.snacks = db.snacks := by
  unfold get_or_create_category
  cases db.categories.find? (fun x => x.name == c) <;> rfl

/-- C5: the brand/category get-or-create runs on the same connection and
transaction as the snack insert (the only `commit` is after the insert
succeeds), so whenever the snack insert fails the whole transaction — any
newly created brand or category row included — is rolled back and the store
is returned unchanged, with a structured error result.  The second and third
conjuncts exhibit that a missing brand/category really is created in the
tentative transaction state, so the first conjunct's unchanged store is a
genuine rollback; the fourth settles the deterministic in-schema failure
(duplicate `(name, brand_id, spec)`) the same way. -/
theorem c5_thm (db : Db) (today : String) (e : PgError)
    (name brand category : String) (d s bc : Option String) :
    (add_snack true db today (some e) name brand category d s bc =
      .ok (db, .error (if e.pgcode = some "23505"
        then "A snack with the same brand, name, and spec likely already exists."
        else "Database error: " ++ e.text))) ∧
    (db.brands.find? (fun x => x.name == brand) = none →
      (get_or_create_brand db brand).1.brands.length = db.brands.length + 1) ∧
    (db.categories.find? (fun x => x.name == category) = none →
      (get_or_create_category (get_or_create_brand db brand).1
          category).1.categories.length = db.categories.length + 1) ∧
    (∀ b0 : BrandRow, db.brands.find? (fun x => x.name == brand) = some b0 →
      db.snacks.any (fun s0 => s0.name == name && s0.brand_id == b0.id
        && s0.spec == s) = true →
      add_snack true db today none name brand category d s bc =
        .ok (db, .error
          "A snack with the same brand, name, and spec likely already exists.")) := by
  refine ⟨?_, ?_, ?_, ?_⟩
  · by_cases h : e.pgcode = some "23505" <;>
      simp [add_snack, insertSnackStmt, h]
  · intro hf
    unfold get_or_create_brand
    rw [hf]
    simp
  · intro hf
    unfold get_or_create_category
    rw [get_or_create_brand_categories, hf]
    simp
  · intro b0 hf hdup
    unfold add_snack get_or_create_brand
    rw [hf]
    simp only [Bool.not_true, Bool.false_eq_true, if_false]
    unfold insertSnackStmt
    rw [get_or_create_category_snacks, hdup]
    simp [uniqueViolation]

/-- Witness for C5: against `dbEx` (brand "newbrand" and category "newcat"
absent; snack "chips" present under brand id 1 with no spec), an injected
store failure on the snack insert leaves the store unchanged, and the
duplicate-snack path reports the fixed message. -/
theorem c5_witness :
    (add_snack true dbEx "2026-10-12" (some (fkViolation "x"))
      "cookie" "newbrand" "newcat" none none none =
      .ok (dbEx, .error
        "Database error: violates foreign key constraint x")) ∧
    (get_or_create_brand dbEx "newbrand").1.brands.length = 2 ∧
    (get_or_create_category (get_or_create_brand dbEx "newbrand").1
        "newcat").1.categories.length = 2 ∧
    add_snack true dbEx "2026-10-12" none "chips" "b" "newcat"
        none none none =
      .ok (dbEx, .error
        "A snack with the same brand, name, and spec likely already exists.") := by
  obtain ⟨h1, h2, h3, h4⟩ :=
    c5_thm dbEx "2026-10-12" (fkViolation "x") "cookie" "newbrand" "newcat"
      none none none
  obtain ⟨-, -, -, h4'⟩ :=
    c5_thm dbEx "2026-10-12" (fkViolation "x") "chips" "b" "newcat"
      none none none
  exact ⟨h1, h2 (by decide), h3 (by decide), h4' ⟨1, "b"⟩ (by decide) (by decide)⟩

/-! ## Claim C6 -/

/-- C6: when both `shop_id` and `shop_name` are supplied,
`query_snack_prices` filters by `shop_id` exclusively — the result is
identical to the same call with `shop_name` absent, for every store, every
other parameter and either connection state. -/
theorem c6_thm (c : Bool) (db : Db) (p : QueryParams) (sid : Nat)
    (nm : Option String) :
    query_snack_prices c db { p with shop_id := some sid, shop_name := nm } =
      query_snack_prices c db { p with shop_id := some sid, shop_name := none } :=
  rfl

/-! ## Claim C9 -/

/-- C9: in every row any tool returns, no raw store value survives — every
`Decimal` has been rendered as its digit-preserving text (`str(value)`) and
every date/timestamp as its ISO text (`value.isoformat()`).  The three
conjuncts cover the three places rows are produced: `_execute_query` (all
query tools), `_execute_crud` (all single-statement CRUD tools), and
`add_snack`'s hand-rolled path, whose rows contain no decimal column by the
snacks schema and whose date loop converts the rest. -/
theorem c9_thm :
    (∀ (c : Bool) (db : Db) (q : Db → Except PgError (List Row))
       (rows : List Row),
      execute_query c db q = .ok rows → ∀ r ∈ rows, rowRendered r = true) ∧
    (∀ (c : Bool) (db : Db) (stmt : Db → Except PgError (Db × CursorOutcome))
       (db' : Db) (row : Row),
      execute_crud c db stmt = .ok (db', .success row) →
      rowRendered row = true) ∧
    (∀ (c : Bool) (db : Db) (t : String) (se : Option PgError)
       (n b cat : String) (d s bc : Option String) (db' : Db) (row : Row),
      add_snack c db t se n b cat d s bc = .ok (db', .success row) →
      rowRendered row = true) := by
  refine ⟨?_, ?_, ?_⟩
  · intro c db q rows heq r hr
    unfold execute_query at heq
    cases c with
    | false =>
      simp only [Bool.not_false, if_true] at heq
      injection heq with h
      subst h
      simp only [List.mem_singleton] at hr
      subst hr
      rfl
    | true =>
      simp only [Bool.not_true, Bool.false_eq_true, if_false] at heq
      cases hq : q db with
      | ok rs =>
        rw [hq] at heq
        injection heq with h
        subst h
        obtain ⟨r0, -, rfl⟩ := List.mem_map.mp hr
        exact rowRendered_normalizeRow r0
      | error e =>
        rw [hq] at heq
        injection heq with h
        subst h
        simp only [List.mem_singleton] at hr
        subst hr
        rfl
  · intro c db stmt db' row heq
    unfold execute_crud at heq
    cases c with
    | false => simp at heq
    | true =>
      simp only [Bool.not_true, Bool.false_eq_true, if_false] at heq
      cases hs : stmt db with
      | ok p =>
        obtain ⟨d1, out⟩ := p
        rw [hs] at heq
        cases out with
        | returnedRow r0 =>
          simp only [Except.ok.injEq, Prod.mk.injEq,
            CrudResult.success.injEq] at heq
          rw [← heq.2]
          exact rowRendered_normalizeRow r0
        | returnedNone => simp at heq
        | command n => simp at heq
      | error e =>
        rw [hs] at heq
        by_cases h23 : e.pgcode = some "23505" <;> simp [h23] at heq
  · intro c db t se n b cat d s bc db' row heq
    unfold add_snack at heq
    cases c with
    | false => simp at heq
    | true =>
      simp only [Bool.not_true, Bool.false_eq_true, if_false] at heq
      cases hs : insertSnackStmt (get_or_create_category
          (get_or_create_brand db b).1 cat).1 t se n
          (get_or_create_brand db b).2
          (get_or_create_category (get_or_create_brand db b).1 cat).2
          d s bc with
      | ok p =>
        obtain ⟨d3, rowS⟩ := p
        rw [hs] at heq
        simp only [Except.ok.injEq, Prod.mk.injEq,
          CrudResult.success.injEq] at heq
        rw [← heq.2]
        obtain ⟨i, nm, bid, cid, dd, ss, bb, ca⟩ := rowS
        cases dd <;> cases ss <;> cases bb <;> rfl
      | error e =>
        rw [hs] at heq
        by_cases h23 : e.pgcode = some "23505" <;> simp [h23] at heq

/-- Witness for C9: the second conjunct applied to the concrete `add_price`
insert against `dbEx`; the returned row carries the price as the text
`"3.50"`, the start date as ISO text, and a null open end. -/
theorem c9_witness :
    rowRendered
      [("id", DbValue.vInt 1), ("shop_id", DbValue.vInt 1),
       ("snack_id", DbValue.vInt 1), ("price", DbValue.vText "3.50"),
       ("discount_price", DbValue.vNull),
       ("start_date", DbValue.vText "2026-10-12"),
       ("end_date", DbValue.vNull)] = true :=
  c9_thm.2.1 true dbEx
    (insertPriceStmt "2026-10-12" 1 1 ⟨350, 2⟩ none "[2026-10-12,]")
    ⟨[⟨1, "A", "addr1", none⟩], [⟨1, "b"⟩], [⟨1, "c"⟩],
     [⟨1, "chips", 1, 1, none, none, none, "2026-01-01"⟩],
     [⟨1, 1, 1, ⟨350, 2⟩, none, "2026-10-12", none,
       "2026-10-12", "2026-10-12"⟩],
     2, 2, 2, 2, 2⟩
    [("id", DbValue.vInt 1), ("shop_id", DbValue.vInt 1),
     ("snack_id", DbValue.vInt 1), ("price", DbValue.vText "3.50"),
     ("discount_price", DbValue.vNull),
     ("start_date", DbValue.vText "2026-10-12"),
     ("end_date", DbValue.vNull)]
    rfl

/-! ## Claim C10 -/

/-- C10: the only text interpolated into the statement besides fixed clause
literals is the `ORDER BY` fragment, and it ranges over exactly the six
fixed combinations of the whitelisted columns and directions; an
unrecognised `order_by` falls back to `p.updated_at`, and any direction
whose upper-casing is not `ASC` yields `DESC`.  Every `WHERE` clause element
is drawn from the fixed nine literals, for every parameter combination —
caller-supplied text is only ever bound as a parameter. -/
theorem c10_thm (ob od : String) (p : QueryParams) :
    sort_column_map_get ob ∈ ["p.price", "p.updated_at", "sn.name"] ∧
    sortDirectionOf od ∈ ["ASC", "DESC"] ∧
    orderByFragment ob od ∈
      ["p.price ASC", "p.price DESC", "p.updated_at ASC",
       "p.updated_at DESC", "sn.name ASC", "sn.name DESC"] ∧
    (ob ∉ (["price", "updated_at", "snack_name"] : List String) →
      sort_column_map_get ob = "p.updated_at") ∧
    (pyUpper od ≠ "ASC" → sortDirectionOf od = "DESC") ∧
    (∀ cl ∈ whereClauseTexts p,
      cl ∈ baseWhereClauseTexts ++
        ["s.id = %(shop_id)s", "s.name ILIKE %(shop_name_like)s",
         "p.created_at >= %(min_recorded_date)s",
         "p.created_at <= %(max_recorded_date)s"]) := by
  refine ⟨?_, ?_, ?_, ?_, ?_, ?_⟩
  · unfold sort_column_map_get
    split_ifs <;> decide
  · unfold sortDirectionOf
    split_ifs <;> decide
  · unfold orderByFragment sort_column_map_get sortDirectionOf
    split_ifs <;> decide
  · intro h
    simp only [List.mem_cons, List.not_mem_nil, or_false, not_or] at h
    simp [sort_column_map_get, h.1, h.2.1, h.2.2]
  · intro h
    simp [sortDirectionOf, h]
  · intro cl hcl
    unfold whereClauseTexts at hcl
    split_ifs at hcl <;>
      (simp only [baseWhereClauseTexts, List.mem_append, List.mem_cons,
         List.not_mem_nil, or_false, false_or] at hcl ⊢; tauto)

/-- Witness for C10: an unrecognised sort column and a lower-case direction
fall back to `p.updated_at DESC`; the always-present price clause is among
the fixed literals. -/
theorem c10_witness :
    sort_column_map_get "size" = "p.updated_at" ∧
    sortDirectionOf "desc" = "DESC" ∧
    "(%(min_price)s IS NULL OR p.price >= %(min_price)s)" ∈
      baseWhereClauseTexts ++
        ["s.id = %(shop_id)s", "s.name ILIKE %(shop_name_like)s",
         "p.created_at >= %(min_recorded_date)s",
         "p.created_at <= %(max_recorded_date)s"] :=
  ⟨(c10_thm "size" "desc" qpDefault).2.2.2.1 (by decide),
   (c10_thm "size" "desc" qpDefault).2.2.2.2.1 (by decide),
   (c10_thm "size" "desc" qpDefault).2.2.2.2.2
     "(%(min_price)s IS NULL OR p.price >= %(min_price)s)" (by decide)⟩

/-! ## Claims C3 and C4: the batch insert -/

theorem insertPriceVals_ok (t : String) (db : Db) (v : PriceVals)
    (h : valsFkOk db v) :
    ∃ db', insertPriceVals t db v = .ok db' ∧ db'.shops = db.shops ∧
      db'.snacks = db.snacks ∧
      db'.prices.length = db.prices.length + 1 := by
  obtain ⟨h1, h2⟩ := h
  unfold insertPriceVals
  rw [h1, h2]
  simp only [Bool.not_true, Bool.false_eq_true, if_false]
  exact ⟨_, rfl, rfl, rfl, by simp⟩

theorem insertPriceVals_err (t : String) (db : Db) (v : PriceVals)
    (h : ¬ valsFkOk db v) :
    ∃ e, insertPriceVals t db v = .error e := by
  unfold valsFkOk at h
  unfold insertPriceVals
  cases h1 : db.shops.any (fun s => s.id == v.shop_id) with
  | false => exact ⟨fkViolation "prices_shop_id_fkey", rfl⟩
  | true =>
    cases h2 : db.snacks.any (fun sn => sn.id == v.snack_id) with
    | false => exact ⟨fkViolation "prices_snack_id_fkey", rfl⟩
    | true => exact absurd ⟨h1, h2⟩ h

theorem insertPricesPage_ok (t : String) :
    ∀ (page : List PriceVals) (db : Db),
      (∀ v ∈ page, valsFkOk db v) →
      ∃ db', insertPricesPage t db page = .ok db' ∧ db'.shops = db.shops ∧
        db'.snacks = db.snacks ∧
        db'.prices.length = db.prices.length + page.length := by
  intro page
  induction page with
  | nil => intro db _; exact ⟨db, rfl, rfl, rfl, rfl⟩
  | cons v vs ih =>
    intro db hall
    obtain ⟨db1, he1, hs1, hn1, hl1⟩ :=
      insertPriceVals_ok t db v (hall v (List.mem_cons_self v vs))
    have hvs : ∀ w ∈ vs, valsFkOk db1 w := by
      intro w hw
      have hww := hall w (List.mem_cons_of_mem v hw)
      unfold valsFkOk at hww ⊢
      rw [hs1, hn1]
      exact hww
    obtain ⟨db2, he2, hs2, hn2, hl2⟩ := ih db1 hvs
    refine ⟨db2, ?_, hs2.trans hs1, hn2.trans hn1, ?_⟩
    · unfold insertPricesPage
      simp only [he1, he2]
    · rw [hl2, hl1]
      simp only [List.length_cons]
      omega

theorem insertPricesPage_err (t : String) :
    ∀ (page : List PriceVals) (db : Db),
      (∃ v ∈ page, ¬ valsFkOk db v) →
      ∃ e, insertPricesPage t db page = .error e := by
  intro page
  induction page with
  | nil =>
    rintro db ⟨v, hv, -⟩
    exact absurd hv (List.not_mem_nil v)
  | cons v vs ih =>
    rintro db ⟨w, hw, hnw⟩
    by_cases hv : valsFkOk db v
    · obtain ⟨db1, he1, hs1, hn1, -⟩ := insertPriceVals_ok t db v hv
      have hwvs : w ∈ vs := by
        rcases List.mem_cons.mp hw with rfl | hmem
        · exact absurd hv hnw
        · exact hmem
      have hnw1 : ¬ valsFkOk db1 w := by
        unfold valsFkOk at hnw ⊢
        rw [hs1, hn1]
        exact hnw
      obtain ⟨e, he2⟩ := ih db1 ⟨w, hwvs, hnw1⟩
      refine ⟨e, ?_⟩
      unfold insertPricesPage
      simp only [he1, he2]
    · obtain ⟨e, he⟩ := insertPriceVals_err t db v hv
      refine ⟨e, ?_⟩
      unfold insertPricesPage
      simp only [he]

theorem executeValuesPages_ok (t : String) :
    ∀ (pages : List (List PriceVals)) (db : Db),
      (∀ page ∈ pages, ∀ v ∈ page, valsFkOk db v) →
      ∃ db', executeValuesPages t db pages = .ok (db', lastLen pages) ∧
        db'.shops = db.shops ∧ db'.snacks = db.snacks ∧
        db'.prices.length = db.prices.length +
          (pages.map List.length).sum := by
  intro pages
  induction pages with
  | nil => intro db _; exact ⟨db, rfl, rfl, rfl, by simp⟩
  | cons page rest ih =>
    intro db hall
    obtain ⟨db1, he1, hs1, hn1, hl1⟩ :=
      insertPricesPage_ok t page db (hall page (List.mem_cons_self page rest))
    cases rest with
    | nil =>
      refine ⟨db1, ?_, hs1, hn1, ?_⟩
      · unfold executeValuesPages
        simp only [he1]
        rfl
      · rw [hl1]
        simp
    | cons p2 r2 =>
      have hall1 : ∀ pg ∈ p2 :: r2, ∀ v ∈ pg, valsFkOk db1 v := by
        intro pg hpg v hv
        have hh := hall pg (List.mem_cons_of_mem page hpg) v hv
        unfold valsFkOk at hh ⊢
        rw [hs1, hn1]
        exact hh
      obtain ⟨db2, he2, hs2, hn2, hl2⟩ := ih db1 hall1
      refine ⟨db2, ?_, hs2.trans hs1, hn2.trans hn1, ?_⟩
      · unfold executeValuesPages
        simp only [he1, he2]
        rfl
      · rw [hl2, hl1]
        simp only [List.map_cons, List.sum_cons]
        omega

theorem executeValuesPages_err (t : String) :
    ∀ (pages : List (List PriceVals)) (db : Db),
      (∃ page ∈ pages, ∃ v ∈ page, ¬ valsFkOk db v) →
      ∃ e, executeValuesPages t db pages = .error e := by
  intro pages
  induction pages with
  | nil =>
    rintro db ⟨pg, hpg, -⟩
    exact absurd hpg (List.not_mem_nil pg)
  | cons page rest ih =>
    rintro db ⟨pg, hpg, w, hw, hnw⟩
    by_cases hp : ∀ v ∈ page, valsFkOk db v
    · obtain ⟨db1, he1, hs1, hn1, -⟩ := insertPricesPage_ok t page db hp
      have hpgrest : pg ∈ rest := by
        rcases List.mem_cons.mp hpg with rfl | hmem
        · exact absurd (hp w hw) hnw
        · exact hmem
      have hnw1 : ¬ valsFkOk db1 w := by
        unfold valsFkOk at hnw ⊢
        rw [hs1, hn1]
        exact hnw
      obtain ⟨e, he2⟩ := ih db1 ⟨pg, hpgrest, w, hw, hnw1⟩
      refine ⟨e, ?_⟩
      cases rest with
      | nil => exact absurd hpgrest (List.not_mem_nil pg)
      | cons p2 r2 =>
        unfold executeValuesPages
        simp only [he1, he2]
    · push_neg at hp
      obtain ⟨v, hv, hnv⟩ := hp
      obtain ⟨e, he⟩ := insertPricesPage_err t page db ⟨v, hv, hnv⟩
      refine ⟨e, ?_⟩
      cases rest with
      | nil =>
        unfold executeValuesPages
        simp only [he]
      | cons p2 r2 =>
        unfold executeValuesPages
        simp only [he]

theorem chunksFuel_join {α : Type} (m : Nat) :
    ∀ (n : Nat) (l : List α), l.length ≤ n →
      (chunksFuel m n l).flatten = l := by
  intro n
  induction n with
  | zero =>
    intro l hl
    cases l with
    | nil => rfl
    | cons x xs => simp at hl
  | succ n ih =>
    intro l hl
    cases l with
    | nil => rfl
    | cons x xs =>
      show ((x :: xs).take (m + 1) :: chunksFuel m n (xs.drop m)).flatten
        = x :: xs
      simp only [List.flatten_cons]
      rw [ih (xs.drop m) (by simp only [List.length_drop]; simp at hl; omega)]
      rw [List.take_succ_cons]
      simp [List.take_append_drop]

theorem chunksOf1_join {α : Type} (m : Nat) (l : List α) :
    (chunksOf1 m l).flatten = l :=
  chunksFuel_join m l.length l le_rfl

theorem chunksOf1_sum_len {α : Type} (m : Nat) (l : List α) :
    ((chunksOf1 m l).map List.length).sum = l.length := by
  rw [← List.length_flatten, chunksOf1_join]

theorem chunksOf1_mem {α : Type} (m : Nat) (l : List α) (page : List α)
    (hp : page ∈ chunksOf1 m l) (v : α) (hv : v ∈ page) : v ∈ l := by
  rw [← chunksOf1_join m l]
  exact List.mem_flatten.mpr ⟨page, hp, hv⟩

theorem chunksOf1_small {α : Type} (m : Nat) (x : α) (xs : List α)
    (h : xs.length ≤ m) : chunksOf1 m (x :: xs) = [x :: xs] := by
  show chunksFuel m ((x :: xs).length) (x :: xs) = [x :: xs]
  simp only [List.length_cons]
  show (x :: xs).take (m + 1) :: chunksFuel m xs.length (xs.drop m) = [x :: xs]
  rw [List.drop_eq_nil_of_le h, List.take_succ_cons, List.take_of_length_le h]
  simp [chunksFuel]

/-- C4: `add_prices_batch` is atomic.  All pages run on one connection
inside one transaction with a single commit after the loop, so when every
record is accepted, every record's row is inserted; when the store rejects
any record (here: a dangling foreign key), the first offending statement
raises, the transaction is rolled back, the store is returned unchanged and
a structured error result is produced. -/
theorem c4_thm (db : Db) (t : String) (data : List PriceInsertReq) :
    ((∀ r ∈ data, reqFkOk db r) →
      batchDbPricesLen (add_prices_batch true db t data) =
        some (db.prices.length + data.length) ∧
      batchIsError (add_prices_batch true db t data) = false) ∧
    ((∃ r ∈ data, ¬ reqFkOk db r) →
      batchDb (add_prices_batch true db t data) = some db ∧
      batchIsError (add_prices_batch true db t data) = true) := by
  constructor
  · intro hall
    cases data with
    | nil => exact ⟨by simp [add_prices_batch, batchDbPricesLen], rfl⟩
    | cons r rs =>
      have hallv : ∀ page ∈ chunksOf1 99 (List.map (reqToVals t) (r :: rs)),
          ∀ v ∈ page, valsFkOk db v := by
        intro page hpage v hv
        have hvv := chunksOf1_mem 99 (List.map (reqToVals t) (r :: rs))
          page hpage v hv
        obtain ⟨r0, hr0, rfl⟩ := List.mem_map.mp hvv
        exact hall r0 hr0
      obtain ⟨db', he, -, -, hl⟩ :=
        executeValuesPages_ok t (chunksOf1 99 (List.map (reqToVals t) (r :: rs)))
          db hallv
      have heq : add_prices_batch true db t (r :: rs) =
          .ok (db', .success (lastLen (chunksOf1 99
            (List.map (reqToVals t) (r :: rs))))) := by
        unfold add_prices_batch
        simp only [List.isEmpty_cons, Bool.false_eq_true, if_false,
          Bool.not_true]
        simp only [he]
      constructor
      · rw [show batchDbPricesLen (add_prices_batch true db t (r :: rs)) =
            some db'.prices.length from by rw [heq]; rfl]
        rw [hl, chunksOf1_sum_len]
        simp
      · rw [heq]
        rfl
  · intro hex
    cases data with
    | nil =>
      obtain ⟨r0, hr0, -⟩ := hex
      exact absurd hr0 (List.not_mem_nil r0)
    | cons r rs =>
      obtain ⟨r0, hr0, hnr0⟩ := hex
      have hv : reqToVals t r0 ∈ List.map (reqToVals t) (r :: rs) :=
        List.mem_map_of_mem _ hr0
      have hvj : reqToVals t r0 ∈
          (chunksOf1 99 (List.map (reqToVals t) (r :: rs))).flatten := by
        rw [chunksOf1_join]
        exact hv
      obtain ⟨page, hpage, hvpage⟩ := List.mem_flatten.mp hvj
      have hnv : ¬ valsFkOk db (reqToVals t r0) := hnr0
      obtain ⟨e, he⟩ := executeValuesPages_err t
        (chunksOf1 99 (List.map (reqToVals t) (r :: rs))) db
        ⟨page, hpage, reqToVals t r0, hvpage, hnv⟩
      have heq : add_prices_batch true db t (r :: rs) =
          .ok (db, .error ("Batch add price failed: " ++ e.text)) := by
        unfold add_prices_batch
        simp only [List.isEmpty_cons, Bool.false_eq_true, if_false,
          Bool.not_true]
        simp only [he]
      exact ⟨by rw [heq]; rfl, by rw [heq]; rfl⟩

/-- Witness for C4: against `dbEx`, a one-record valid batch inserts its one
row without error; a one-record batch whose shop id 7 dangles leaves the
store unchanged and reports an error. -/
theorem c4_witness :
    (batchDbPricesLen (add_prices_batch true dbEx "2026-10-12" [reqEx]) =
        some 1 ∧
     batchIsError (add_prices_batch true dbEx "2026-10-12" [reqEx]) = false) ∧
    (batchDb (add_prices_batch true dbEx "2026-10-12"
        [⟨7, 1, ⟨1, 0⟩, none, none, none⟩]) = some dbEx ∧
     batchIsError (add_prices_batch true dbEx "2026-10-12"
        [⟨7, 1, ⟨1, 0⟩, none, none, none⟩]) = true) :=
  ⟨(c4_thm dbEx "2026-10-12" [reqEx]).1 (by decide),
   (c4_thm dbEx "2026-10-12" [⟨7, 1, ⟨1, 0⟩, none, none, none⟩]).2
     ⟨⟨7, 1, ⟨1, 0⟩, none, none, none⟩, by simp, by decide⟩⟩

set_option maxRecDepth 20000 in
/-- C3, as stated, is false for batches above the driver's page size:
`execute_values` splits the rows into pages of 100 and `cursor.rowcount`
reflects only the last page's statement, so 101 valid records insert 101
rows but the result reports "Successfully added 1 price records.". -/
theorem c3_counterexample :
    batchReported (add_prices_batch true dbEx "2026-10-12"
      (List.replicate 101 reqEx)) = some 1 ∧
    batchDbPricesLen (add_prices_batch true dbEx "2026-10-12"
      (List.replicate 101 reqEx)) = some 101 :=
  ⟨rfl, rfl⟩

/-- C3 (corrected): for a non-empty sequence of N valid records with
N ≤ 100 (one `execute_values` page), a successful `add_prices_batch`
inserts exactly N price rows and reports N; for N > 100 all N rows still
insert but the reported count is only the size of the last page. -/
theorem c3_thm (db : Db) (t : String) (data : List PriceInsertReq)
    (hne : data ≠ []) (hlen : data.length ≤ 100)
    (hall : ∀ r ∈ data, reqFkOk db r) :
    batchReported (add_prices_batch true db t data) = some data.length ∧
    batchDbPricesLen (add_prices_batch true db t data) =
      some (db.prices.length + data.length) := by
  cases data with
  | nil => exact absurd rfl hne
  | cons r rs =>
    have hsmall : chunksOf1 99 (List.map (reqToVals t) (r :: rs)) =
        [List.map (reqToVals t) (r :: rs)] := by
      show chunksOf1 99 (reqToVals t r :: List.map (reqToVals t) rs) = _
      exact chunksOf1_small 99 _ _
        (by simp only [List.length_map]; simp at hlen; omega)
    have hallv : ∀ page ∈ [List.map (reqToVals t) (r :: rs)],
        ∀ v ∈ page, valsFkOk db v := by
      intro page hpage v hv
      simp only [List.mem_singleton] at hpage
      subst hpage
      obtain ⟨r0, hr0, rfl⟩ := List.mem_map.mp hv
      exact hall r0 hr0
    obtain ⟨db', he, -, -, hl⟩ :=
      executeValuesPages_ok t [List.map (reqToVals t) (r :: rs)] db hallv
    have heq : add_prices_batch true db t (r :: rs) =
        .ok (db', .success (lastLen [List.map (reqToVals t) (r :: rs)])) := by
      unfold add_prices_batch
      simp only [List.isEmpty_cons, Bool.false_eq_true, if_false,
        Bool.not_true]
      rw [hsmall]
      simp only [he]
    constructor
    · rw [show batchReported (add_prices_batch true db t (r :: rs)) =
          some (lastLen [List.map (reqToVals t) (r :: rs)]) from by
            rw [heq]; rfl]
      simp [lastLen]
    · rw [show batchDbPricesLen (add_prices_batch true db t (r :: rs)) =
          some db'.prices.length from by rw [heq]; rfl]
      rw [hl]
      simp [lastLen]

/-- Witness for C3 within one page: one valid record reports and inserts
exactly one row. -/
theorem c3_witness :
    batchReported (add_prices_batch true dbEx "2026-10-12" [reqEx]) =
        some 1 ∧
    batchDbPricesLen (add_prices_batch true dbEx "2026-10-12" [reqEx]) =
        some 1 :=
  c3_thm dbEx "2026-10-12" [reqEx] (by simp) (by simp) (by decide)

end SnackService
